import Mathlib

/- Verification of the openfilter observability and worker-loop specification
   against a shallow embedding of the repository sources. -/

namespace Openfilter

/-- Characters treated as whitespace by the embedding of python str.strip. -/
def isSpaceChar (c : Char) : Bool := c.isWhitespace

/-- Embedding of python str.strip: drop whitespace from both ends of a string. -/
def pyStrip (s : String) : String :=
  String.mk (((s.toList.dropWhile isSpaceChar).reverse.dropWhile isSpaceChar).reverse)

/-- Auxiliary for pySplit: accumulate characters until the separator. -/
def pySplitAux (sep : Char) : List Char → List Char → List String
  | [], acc => [String.mk acc.reverse]
  | c :: cs, acc =>
      if c = sep then String.mk acc.reverse :: pySplitAux sep cs []
      else pySplitAux sep cs (c :: acc)

/-- Embedding of python str.split(sep) for a one-character separator: every
    occurrence of the separator splits, empty pieces are kept. -/
def pySplit (sep : Char) (s : String) : List String := pySplitAux sep s.toList []

/-- Environment visible to read_allowlist: the two OF_SAFE_METRICS variables.
    A value of none models an unset variable; python treats the empty string as
    falsy, which the embedding reproduces explicitly. -/
structure TelemetryEnv where
  safe_metrics_file : Option String
  safe_metrics : Option String

/-- Embedding of the env-var parse in read_allowlist (config.py line 32): split
    OF_SAFE_METRICS on commas, strip each entry, drop entries that strip to empty. -/
def parseSafeMetricsEnv (s : String) : Finset String :=
  (((pySplit ',' s).map pyStrip).filter (fun t => t ≠ "")).toFinset

/-- Value of read_allowlist when the file branch does not return (config.py
    lines 29-35): an unset or empty OF_SAFE_METRICS yields the empty set. -/
def envAllowlist (env : TelemetryEnv) : Finset String :=
  match env.safe_metrics with
  | some s => if s = "" then ∅ else parseSafeMetricsEnv s
  | none => ∅

/-- Embedding of read_allowlist (config.py lines 13-35). The fs argument models
    the combined effect of open(path), yaml.safe_load and the safe_metrics key
    lookup: some names on success, none when any of those raises. -/
def read_allowlist (fs : String → Option (List String)) (env : TelemetryEnv) : Finset String :=
  match env.safe_metrics_file with
  | some path =>
      if path = "" then envAllowlist env
      else
        match fs path with
        | some names => names.toFinset
        | none => envAllowlist env
  | none => envAllowlist env

/-- Embedding of generate_histogram_buckets (registry.py lines 18-51), with python
    floats modelled as real numbers. A none result models the ValueError raised
    when num_buckets < 2; a min_val at or below zero is replaced by 0.1; the
    num_buckets - 1 boundaries are exp(log min + i * step) for i below
    num_buckets - 1, step being the log-range divided by num_buckets - 1. -/
noncomputable def generate_histogram_buckets (num_buckets : ℤ) (min_val max_val : ℝ) :
    Option (List ℝ) :=
  if num_buckets < 2 then none
  else
    let minv : ℝ := if min_val ≤ 0 then 0.1 else min_val
    let nb : ℕ := (num_buckets - 1).toNat
    let logMin : ℝ := Real.log minv
    let logMax : ℝ := Real.log max_val
    let logStep : ℝ := (logMax - logMin) / (nb : ℝ)
    some ((List.range nb).map (fun (i : ℕ) => Real.exp (logMin + (i : ℝ) * logStep)))

/-- Claim C2: for every integer N at least 2 and bounds with max(min_val, 0.1)
    below max_val, generate_histogram_buckets returns exactly N - 1 strictly
    increasing boundaries. -/
theorem c2_bucket_boundaries (N : ℤ) (min_val max_val : ℝ) (hN : 2 ≤ N)
    (h : max min_val 0.1 < max_val) :
    ∃ l : List ℝ, generate_histogram_buckets N min_val max_val = some l ∧
      (l.length : ℤ) = N - 1 ∧ l.Pairwise (· < ·) := by
  have hnot : ¬ N < 2 := not_lt.mpr hN
  have hminv_pos : 0 < (if min_val ≤ 0 then (0.1 : ℝ) else min_val) := by
    split_ifs with hm
    · norm_num
    · push_neg at hm
      exact hm
  have hminv_lt : (if min_val ≤ 0 then (0.1 : ℝ) else min_val) < max_val := by
    split_ifs with hm
    · exact lt_of_le_of_lt (le_max_right min_val 0.1) h
    · exact lt_of_le_of_lt (le_max_left min_val 0.1) h
  have hlog : Real.log (if min_val ≤ 0 then (0.1 : ℝ) else min_val) < Real.log max_val :=
    Real.log_lt_log hminv_pos hminv_lt
  have hnb : 0 < (N - 1).toNat := by omega
  have hnbR : (0 : ℝ) < ((N - 1).toNat : ℝ) := by exact_mod_cast hnb
  have hstep : 0 < (Real.log max_val - Real.log (if min_val ≤ 0 then (0.1 : ℝ) else min_val)) /
      ((N - 1).toNat : ℝ) := div_pos (sub_pos.mpr hlog) hnbR
  refine ⟨(List.range (N - 1).toNat).map (fun (i : ℕ) =>
      Real.exp (Real.log (if min_val ≤ 0 then (0.1 : ℝ) else min_val) + (i : ℝ) *
        ((Real.log max_val - Real.log (if min_val ≤ 0 then (0.1 : ℝ) else min_val)) /
          ((N - 1).toNat : ℝ)))), ?_, ?_, ?_⟩
  · simp only [generate_histogram_buckets, if_neg hnot]
  · simp only [List.length_map, List.length_range]
    omega
  · refine List.Pairwise.map _ (fun a b hab => ?_) (List.pairwise_lt_range _)
    exact Real.exp_lt_exp.mpr (add_lt_add_left
      (mul_lt_mul_of_pos_right (by exact_mod_cast hab) hstep) _)

/-- Claim C2 witness: three buckets over the domain from 0 to 1 give two strictly
    increasing boundaries. -/
theorem c2_bucket_boundaries_witness :
    ∃ l : List ℝ, generate_histogram_buckets 3 0 1 = some l ∧
      (l.length : ℤ) = 3 - 1 ∧ l.Pairwise (· < ·) :=
  c2_bucket_boundaries 3 0 1 (by norm_num)
    (by rw [max_eq_right (by norm_num : (0 : ℝ) ≤ 0.1)]; norm_num)

/-- Instrument kinds an openfilter MetricSpec may declare. Modelled from the spec:
    specs.py is not among the sources; section 4.7 declares instrument as one of
    counter, histogram, gauge, which are also the strings registry.py matches on. -/
inductive InstrumentKind
  | counter
  | histogram
  | gauge
deriving DecidableEq

/-- Export targets of a MetricSpec. Modelled from the spec (section 4.7), with the
    names the registry code matches on: openlineage, otel, or both. -/
inductive MetricTarget
  | openlineage
  | otel
  | both
deriving DecidableEq

/-- Export modes of a MetricSpec. Modelled from the spec: raw, aggregated or both. -/
inductive ExportMode
  | raw
  | aggregated
  | both
deriving DecidableEq

/-- Declarative metric specification. Modelled from the spec: specs.py is not among
    the sources; the fields follow section 4.7 and the uses in registry.py. The
    value_fn result models the python number-or-None result, numbers as rationals,
    and an error result models an exception raised by the user-supplied function.
    D is the frame-data type. -/
structure MetricSpec (D : Type) where
  name : String
  instrument : InstrumentKind
  value_fn : D → Except String (Option ℚ)
  export_mode : ExportMode
  target : MetricTarget
  boundaries : Option (List ℚ)
  num_buckets : ℤ

/-- Check that the first character list is a prefix of the second. -/
def leadMatch : List Char → List Char → Bool
  | [], _ => true
  | _ :: _, [] => false
  | a :: as, b :: bs => a = b && leadMatch as bs

/-- Check that the first character list occurs contiguously inside the second. -/
def hasSub (pat : List Char) : List Char → Bool
  | [] => pat.isEmpty
  | c :: cs => leadMatch pat (c :: cs) || hasSub pat cs

/-- Embedding of the python substring test pat in s. -/
def containsSub (pat s : String) : Bool := hasSub pat.toList s.toList

/-- Embedding of python str.lower via Char.toLower, character by character. -/
def pyLower (s : String) : String := String.mk (s.toList.map Char.toLower)

/-- Embedding of the histogram boundary selection in _create_instrument
    (registry.py lines 117-137): explicit boundaries win; otherwise boundaries
    are auto-generated over a domain chosen by substring tests on the lowered
    metric name, in the order the code performs them. -/
noncomputable def histogramBoundaries {D : Type} (spec : MetricSpec D) : Option (List ℝ) :=
  match spec.boundaries with
  | some bs => some (bs.map (fun (q : ℚ) => (q : ℝ)))
  | none =>
      if containsSub "confidence" (pyLower spec.name) then
        generate_histogram_buckets spec.num_buckets 0 1
      else if containsSub "detection" (pyLower spec.name) then
        generate_histogram_buckets spec.num_buckets 0 50
      else if containsSub "frame" (pyLower spec.name) then
        generate_histogram_buckets spec.num_buckets 0 100
      else if containsSub "time" (pyLower spec.name) ||
          containsSub "latency" (pyLower spec.name) then
        generate_histogram_buckets spec.num_buckets 0 10
      else if containsSub "size" (pyLower spec.name) ||
          containsSub "ratio" (pyLower spec.name) then
        generate_histogram_buckets spec.num_buckets 0 2
      else
        generate_histogram_buckets spec.num_buckets 0 100

/-- Domain upper bound stated by the amended claim C3: confidence gives 1,
    detection gives 50, frame gives 100, time or latency gives 10, size or ratio
    gives 2, any other name gives 100, earlier rules taking precedence. -/
def claimedDomainMax (name : String) : ℝ :=
  if containsSub "confidence" (pyLower name) then 1
  else if containsSub "detection" (pyLower name) then 50
  else if containsSub "frame" (pyLower name) then 100
  else if containsSub "time" (pyLower name) || containsSub "latency" (pyLower name) then 10
  else if containsSub "size" (pyLower name) || containsSub "ratio" (pyLower name) then 2
  else 100

/-- Boundary selection as the amended claim C3 words it: instrument creation uses
    exactly the explicit boundaries when provided, otherwise boundaries are
    auto-generated log-spaced from 0 up to the domain bound inferred from the
    metric name. -/
noncomputable def claimedHistogramBoundaries {D : Type} (spec : MetricSpec D) :
    Option (List ℝ) :=
  match spec.boundaries with
  | some bs => some (bs.map (fun (q : ℚ) => (q : ℝ)))
  | none => generate_histogram_buckets spec.num_buckets 0 (claimedDomainMax spec.name)

/-- Histogram spec used to refute the original domain table of claim C3: the name
    frame_time contains both frame and time and has no explicit boundaries. -/
def frameTimeSpec : MetricSpec Unit :=
  ⟨ "frame_time", InstrumentKind.histogram, fun _ => Except.ok none,
    ExportMode.aggregated, MetricTarget.both, none, 10⟩

/-- Claim C3 (counterexample): for the histogram metric named frame_time the code
    auto-generates boundaries over the domain up to 100, taken from its frame
    branch, not over the domain up to 10 that the claim assigns to every
    non-confidence non-detection name containing time. -/
theorem c3_frame_branch_counterexample :
    histogramBoundaries frameTimeSpec ≠ generate_histogram_buckets 10 0 10 := by
  have hcode : histogramBoundaries frameTimeSpec = generate_histogram_buckets 10 0 100 := rfl
  rw [hcode]
  have h9 : ((10 : ℤ) - 1).toNat = 9 := rfl
  have hmin : ((0 : ℝ) ≤ 0) = True := by simp
  intro heq
  simp only [generate_histogram_buckets, h9, if_neg (by norm_num : ¬ (10 : ℤ) < 2),
    hmin, if_true, Option.some.injEq] at heq
  have h1 := congrArg (fun l => l[1]?) heq
  simp only [List.getElem?_map, List.getElem?_range, Option.map] at h1
  norm_num [Real.exp_eq_exp] at h1
  have hL : Real.log 100 = 2 * Real.log 10 := by
    rw [show (100 : ℝ) = 10 ^ 2 by norm_num, Real.log_pow]
    push_cast
    ring
  have hpos : 0 < Real.log 10 := Real.log_pos (by norm_num)
  rw [hL] at h1
  have h2 : Real.log 10 = 0 := by linarith
  linarith

/-- Claim C3 (amended): the boundary selection of _create_instrument equals the
    amended claim table, which inserts the frame branch, giving domain bound 100,
    between the detection and the time-or-latency rules. -/
theorem c3_histogram_boundaries {D : Type} (spec : MetricSpec D) :
    histogramBoundaries spec = claimedHistogramBoundaries spec := by
  rcases spec with ⟨name, instr, vfn, em, tgt, bnds, nbk⟩
  cases bnds with
  | some bs => rfl
  | none =>
      simp only [histogramBoundaries, claimedHistogramBoundaries, claimedDomainMax]
      split_ifs <;> rfl

/-- State of one OpenTelemetry instrument as far as the registry can affect it:
    the kind it was created as, the advisory histogram boundaries passed at
    creation, the sequence of values given to add, the sequence of values given
    to record, and the observable gauge value, which create_observable_gauge
    creates absent and registry.py never sets. -/
structure Instr where
  kind : InstrumentKind
  advisory : Option (List ℝ)
  adds : List ℚ
  records : List ℚ
  value : Option ℚ

/-- Embedding of TelemetryRegistry._create_instrument (registry.py lines 101-150)
    for one meter: counters and gauges always succeed; a histogram fails exactly
    when its automatic boundary generation raises ValueError, modelled by the
    error result. Fresh instruments carry no recorded values. -/
noncomputable def create_instrument {D : Type} (spec : MetricSpec D) : Except String Instr :=
  match spec.instrument with
  | InstrumentKind.counter =>
      Except.ok ⟨InstrumentKind.counter, none, [], [], none⟩
  | InstrumentKind.histogram =>
      match histogramBoundaries spec with
      | some bs => Except.ok ⟨InstrumentKind.histogram, some bs, [], [], none⟩
      | none => Except.error "ValueError"
  | InstrumentKind.gauge =>
      Except.ok ⟨InstrumentKind.gauge, none, [], [], none⟩

/-- One entry of the registry: a spec together with its _otel_inst pair, the
    OpenLineage slot first and the OTEL slot second; none models a python None. -/
structure RegEntry (D : Type) where
  spec : MetricSpec D
  inst : Option (Option Instr × Option Instr)

/-- OpenLineage instrument slot of an entry. -/
def RegEntry.olInst {D : Type} (e : RegEntry D) : Option Instr :=
  e.inst.bind (fun p => p.1)

/-- OTEL instrument slot of an entry. -/
def RegEntry.otInst {D : Type} (e : RegEntry D) : Option Instr :=
  e.inst.bind (fun p => p.2)

/-- Embedding of TelemetryRegistry._create_instruments (registry.py lines 78-99):
    the slots start as a None pair, the OpenLineage slot is filled for target
    openlineage or both, then the OTEL slot for target otel or both; an exception
    while creating an instrument is caught, leaving exactly the slots filled so
    far. -/
noncomputable def create_instruments {D : Type} (spec : MetricSpec D) : RegEntry D :=
  if spec.target = MetricTarget.openlineage ∨ spec.target = MetricTarget.both then
    match create_instrument spec with
    | Except.error _ => ⟨spec, some (none, none)⟩
    | Except.ok i0 =>
        if spec.target = MetricTarget.otel ∨ spec.target = MetricTarget.both then
          match create_instrument spec with
          | Except.error _ => ⟨spec, some (some i0, none)⟩
          | Except.ok i1 => ⟨spec, some (some i0, some i1)⟩
        else ⟨spec, some (some i0, none)⟩
  else
    if spec.target = MetricTarget.otel ∨ spec.target = MetricTarget.both then
      match create_instrument spec with
      | Except.error _ => ⟨spec, some (none, none)⟩
      | Except.ok i1 => ⟨spec, some (none, some i1)⟩
    else ⟨spec, some (none, none)⟩

/-- Embedding of TelemetryRegistry.__init__ (registry.py lines 57-76): one entry
    per spec, in declaration order. -/
noncomputable def TelemetryRegistry.init {D : Type} (specs : List (MetricSpec D)) :
    List (RegEntry D) :=
  specs.map create_instruments

/-- Embedding of TelemetryRegistry._record_to_instrument (registry.py lines
    180-198): dispatch on the spec instrument kind; a counter receives add, a
    histogram receives record, and the gauge branch only logs, leaving the
    instrument untouched. -/
def record_to_instrument {D : Type} (spec : MetricSpec D) (inst : Instr) (val : ℚ) : Instr :=
  match spec.instrument with
  | InstrumentKind.counter =>
      ⟨inst.kind, inst.advisory, inst.adds ++ [val], inst.records, inst.value⟩
  | InstrumentKind.histogram =>
      ⟨inst.kind, inst.advisory, inst.adds, inst.records ++ [val], inst.value⟩
  | InstrumentKind.gauge => inst

/-- Embedding of one iteration of the loop of TelemetryRegistry.record
    (registry.py lines 158-178): skip an entry without any instrument, skip a
    None value, deliver a number to both populated slots; the second component
    is the error message logged when value_fn raises. -/
def record_spec {D : Type} (d : D) (e : RegEntry D) : RegEntry D × Option String :=
  match e.inst with
  | none => (e, none)
  | some (s0, s1) =>
      if s0.isNone && s1.isNone then (e, none)
      else
        match e.spec.value_fn d with
        | Except.error msg => (e, some msg)
        | Except.ok none => (e, none)
        | Except.ok (some v) =>
            (⟨e.spec, some (s0.map (fun j => record_to_instrument e.spec j v),
                s1.map (fun j => record_to_instrument e.spec j v))⟩, none)

/-- Embedding of TelemetryRegistry.record (registry.py lines 152-178): the loop
    processes every entry in order, each updating only its own instruments. -/
def TelemetryRegistry.record {D : Type} (d : D) (entries : List (RegEntry D)) :
    List (RegEntry D) :=
  entries.map (fun e => (record_spec d e).1)

/-- Error messages logged by TelemetryRegistry.record, in entry order. -/
def TelemetryRegistry.recordErrors {D : Type} (d : D) (entries : List (RegEntry D)) :
    List String :=
  entries.filterMap (fun e => (record_spec d e).2)

/-- Helper: bucket generation succeeds for at least two buckets. -/
theorem generate_histogram_buckets_ok (n : ℤ) (a b : ℝ) (h : 2 ≤ n) :
    ∃ l, generate_histogram_buckets n a b = some l := by
  simp only [generate_histogram_buckets, if_neg (not_lt.mpr h)]
  exact ⟨_, rfl⟩

/-- Helper: boundary selection succeeds when explicit boundaries are given or
    num_buckets is at least 2. -/
theorem histogramBoundaries_ok {D : Type} (spec : MetricSpec D)
    (h : spec.boundaries = none → 2 ≤ spec.num_buckets) :
    ∃ bs, histogramBoundaries spec = some bs := by
  cases hb : spec.boundaries with
  | some bs => exact ⟨bs.map (fun (q : ℚ) => (q : ℝ)), by simp only [histogramBoundaries, hb]⟩
  | none =>
      have h2 := h hb
      simp only [histogramBoundaries, hb]
      split_ifs <;> exact generate_histogram_buckets_ok _ _ _ h2

/-- Helper: instrument creation succeeds unless the spec is a histogram whose
    automatic boundary generation raises. -/
theorem create_instrument_ok {D : Type} (spec : MetricSpec D)
    (h : spec.instrument = InstrumentKind.histogram → spec.boundaries = none →
      2 ≤ spec.num_buckets) :
    ∃ i, create_instrument spec = Except.ok i := by
  cases hk : spec.instrument with
  | counter => exact ⟨⟨InstrumentKind.counter, none, [], [], none⟩, by simp only [create_instrument, hk]⟩
  | gauge => exact ⟨⟨InstrumentKind.gauge, none, [], [], none⟩, by simp only [create_instrument, hk]⟩
  | histogram =>
      obtain ⟨bs, hbs⟩ := histogramBoundaries_ok spec (h hk)
      exact ⟨⟨InstrumentKind.histogram, some bs, [], [], none⟩, by simp only [create_instrument, hk, hbs]⟩

/-- Helper: construction always leaves a slot pair on the entry and keeps its
    spec. -/
theorem create_instruments_slots {D : Type} (spec : MetricSpec D) :
    ∃ s0 s1, (create_instruments spec).inst = some (s0, s1) ∧
      (create_instruments spec).spec = spec := by
  cases hc : create_instrument spec with
  | error msg => simp only [create_instruments, hc] ; split_ifs <;> exact ⟨_, _, rfl, rfl⟩
  | ok i => simp only [create_instruments, hc] ; split_ifs <;> exact ⟨_, _, rfl, rfl⟩

/-- Histogram spec whose automatic boundary generation raises: a single bucket. -/
def oneBucketSpec : MetricSpec Unit :=
  ⟨ "h", InstrumentKind.histogram, fun _ => Except.ok none,
    ExportMode.aggregated, MetricTarget.both, none, 1⟩

/-- Claim C4 (counterexample): a histogram spec with target both whose automatic
    bucket generation raises ValueError ends construction with both instrument
    slots empty, although its declared target promises a populated slot. -/
theorem c4_creation_failure_counterexample :
    ¬ ((create_instruments oneBucketSpec).olInst.isSome ↔
        (oneBucketSpec.target = MetricTarget.openlineage ∨
          oneBucketSpec.target = MetricTarget.both)) := by
  decide

/-- Claim C4 (amended): after construction each registered spec owns one
    instrument per declared target, the OpenLineage slot populated exactly for
    target openlineage or both and the OTEL slot exactly for target otel or
    both, provided instrument creation does not raise, that is, for a histogram
    spec without explicit boundaries num_buckets is at least 2; record delivers
    the value to every populated slot. -/
theorem c4_instruments_per_target {D : Type} (specs : List (MetricSpec D))
    (spec : MetricSpec D) (hmem : spec ∈ specs)
    (hok : spec.instrument = InstrumentKind.histogram → spec.boundaries = none →
      2 ≤ spec.num_buckets) :
    create_instruments spec ∈ TelemetryRegistry.init specs
    ∧ ((create_instruments spec).olInst.isSome ↔
        (spec.target = MetricTarget.openlineage ∨ spec.target = MetricTarget.both))
    ∧ ((create_instruments spec).otInst.isSome ↔
        (spec.target = MetricTarget.otel ∨ spec.target = MetricTarget.both))
    ∧ (∀ (d : D) (v : ℚ), spec.value_fn d = Except.ok (some v) →
        (record_spec d (create_instruments spec)).1.olInst =
          ((create_instruments spec).olInst).map (fun j => record_to_instrument spec j v)
        ∧ (record_spec d (create_instruments spec)).1.otInst =
          ((create_instruments spec).otInst).map (fun j => record_to_instrument spec j v)) := by
  obtain ⟨i, hi⟩ := create_instrument_ok spec hok
  refine ⟨?_, ?_, ?_, ?_⟩
  · exact List.mem_map_of_mem _ hmem
  · rcases ht : spec.target with _ | _ | _ <;>
      simp [create_instruments, hi, ht, RegEntry.olInst]
  · rcases ht : spec.target with _ | _ | _ <;>
      simp [create_instruments, hi, ht, RegEntry.otInst]
  · intro d v hv
    rcases ht : spec.target with _ | _ | _ <;>
      simp [create_instruments, hi, ht, RegEntry.olInst, RegEntry.otInst, record_spec, hv]

/-- Counter spec with target both used as concrete input of the C4 witness. -/
def bothCounterSpec : MetricSpec Unit :=
  ⟨ "wc", InstrumentKind.counter, fun _ => Except.ok (some 1),
    ExportMode.aggregated, MetricTarget.both, none, 10⟩

/-- Claim C4 witness: the concrete counter spec with target both gets both slots
    populated. -/
theorem c4_instruments_per_target_witness :
    (create_instruments bothCounterSpec).olInst.isSome ∧
      (create_instruments bothCounterSpec).otInst.isSome := by
  obtain ⟨-, h1, h2, -⟩ :=
    c4_instruments_per_target [bothCounterSpec] bothCounterSpec (List.Mem.head [])
      (fun h _ => absurd h (by decide))
  exact ⟨h1.mpr (Or.inr rfl), h2.mpr (Or.inr rfl)⟩

/-- Gauge spec used to refute the gauge clause of claim C1. -/
def gaugeFiveSpec : MetricSpec Unit :=
  ⟨ "g", InstrumentKind.gauge, fun _ => Except.ok (some 5),
    ExportMode.aggregated, MetricTarget.openlineage, none, 10⟩

/-- Claim C1 (counterexample): recording the value 5 for a registered gauge spec
    leaves the observable gauge value absent rather than updating it to 5, since
    the gauge branch of _record_to_instrument only logs. -/
theorem c1_gauge_not_updated_counterexample :
    ((TelemetryRegistry.record () (TelemetryRegistry.init [gaugeFiveSpec])).head?.bind
        RegEntry.olInst).map Instr.value = some none ∧
      ((TelemetryRegistry.record () (TelemetryRegistry.init [gaugeFiveSpec])).head?.bind
        RegEntry.olInst).map Instr.value ≠ some (some 5) := by
  constructor
  · rfl
  · decide

/-- Claim C1 (amended): per registered spec, record leaves the entry unchanged
    when value_fn returns None, no instrument being invoked; a numeric value is
    delivered to every populated slot, counters receiving add, histograms
    receiving record, and a gauge spec having no instrument call made at all. -/
theorem c1_record_dispatch {D : Type} (specs : List (MetricSpec D))
    (spec : MetricSpec D) (hmem : spec ∈ specs) (d : D) :
    (record_spec d (create_instruments spec)).1 ∈
      TelemetryRegistry.record d (TelemetryRegistry.init specs)
    ∧ (spec.value_fn d = Except.ok none →
        (record_spec d (create_instruments spec)).1 = create_instruments spec)
    ∧ (∀ v : ℚ, spec.value_fn d = Except.ok (some v) →
        (record_spec d (create_instruments spec)).1.olInst =
          ((create_instruments spec).olInst).map (fun j => record_to_instrument spec j v)
        ∧ (record_spec d (create_instruments spec)).1.otInst =
          ((create_instruments spec).otInst).map (fun j => record_to_instrument spec j v))
    ∧ (spec.instrument = InstrumentKind.counter → ∀ (v : ℚ) (j : Instr),
        record_to_instrument spec j v =
          ⟨j.kind, j.advisory, j.adds ++ [v], j.records, j.value⟩)
    ∧ (spec.instrument = InstrumentKind.histogram → ∀ (v : ℚ) (j : Instr),
        record_to_instrument spec j v =
          ⟨j.kind, j.advisory, j.adds, j.records ++ [v], j.value⟩)
    ∧ (spec.instrument = InstrumentKind.gauge → ∀ (v : ℚ) (j : Instr),
        record_to_instrument spec j v = j) := by
  obtain ⟨s0, s1, hinst, hspec⟩ := create_instruments_slots spec
  refine ⟨?_, ?_, ?_, ?_, ?_, ?_⟩
  · simp only [TelemetryRegistry.record, TelemetryRegistry.init]
    exact List.mem_map_of_mem _ (List.mem_map_of_mem _ hmem)
  · intro hv
    cases s0 <;> cases s1 <;> simp [record_spec, hinst, hspec, hv]
  · intro v hv
    cases s0 <;> cases s1 <;>
      simp [record_spec, hinst, hspec, hv, RegEntry.olInst, RegEntry.otInst]
  · intro hk v j
    simp [record_to_instrument, hk]
  · intro hk v j
    simp [record_to_instrument, hk]
  · intro hk v j
    simp [record_to_instrument, hk]

/-- Counter spec used as concrete input of the C1 and C9 witnesses. -/
def counterTwoSpec : MetricSpec Unit :=
  ⟨ "c", InstrumentKind.counter, fun _ => Except.ok (some 2),
    ExportMode.aggregated, MetricTarget.both, none, 10⟩

/-- Claim C1 witness: recording the value 2 for the concrete counter spec appends
    2 to the add calls of its OpenLineage instrument. -/
theorem c1_record_dispatch_witness :
    ((record_spec () (create_instruments counterTwoSpec)).1.olInst).map Instr.adds =
      some [2] := by
  obtain ⟨-, -, hrec, -, -, -⟩ :=
    c1_record_dispatch [counterTwoSpec] counterTwoSpec (List.Mem.head []) ()
  obtain ⟨h1, -⟩ := hrec 2 rfl
  rw [h1]
  rfl

/-- Claim C9: an exception from value_fn while processing one entry is caught and
    logged, the failing entry is left unchanged, and every other entry is
    processed exactly as it would be without the failure. -/
theorem c9_record_catches_exceptions {D : Type} (pre post : List (RegEntry D))
    (e : RegEntry D) (d : D) (msg : String) (s0 s1 : Option Instr)
    (hinst : e.inst = some (s0, s1)) (hne : s0.isSome ∨ s1.isSome)
    (hfn : e.spec.value_fn d = Except.error msg) :
    TelemetryRegistry.record d (pre ++ e :: post) =
      TelemetryRegistry.record d pre ++ e :: TelemetryRegistry.record d post
    ∧ TelemetryRegistry.recordErrors d (pre ++ e :: post) =
      TelemetryRegistry.recordErrors d pre ++ msg ::
        TelemetryRegistry.recordErrors d post := by
  have hone : record_spec d e = (e, some msg) := by
    cases s0 <;> cases s1 <;> simp_all [record_spec]
  constructor
  · simp [TelemetryRegistry.record, hone]
  · simp [TelemetryRegistry.recordErrors, hone]

/-- Counter spec whose value_fn raises, used by the C9 witness. -/
def boomSpec : MetricSpec Unit :=
  ⟨ "b", InstrumentKind.counter, fun _ => Except.error "boom",
    ExportMode.aggregated, MetricTarget.openlineage, none, 10⟩

/-- Claim C9 witness: in a registry holding the raising spec followed by a
    healthy counter spec, record leaves the raising entry alone, logs its
    message, and still processes the second entry. -/
theorem c9_record_catches_exceptions_witness :
    TelemetryRegistry.record ()
        ([] ++ create_instruments boomSpec :: [create_instruments counterTwoSpec]) =
      TelemetryRegistry.record () [] ++ create_instruments boomSpec ::
        TelemetryRegistry.record () [create_instruments counterTwoSpec]
    ∧ TelemetryRegistry.recordErrors ()
        ([] ++ create_instruments boomSpec :: [create_instruments counterTwoSpec]) =
      TelemetryRegistry.recordErrors () [] ++ "boom" ::
        TelemetryRegistry.recordErrors () [create_instruments counterTwoSpec] :=
  c9_record_catches_exceptions [] [create_instruments counterTwoSpec]
    (create_instruments boomSpec) () "boom"
    (some ⟨InstrumentKind.counter, none, [], [], none⟩) none rfl (Or.inl rfl) rfl

/-- Input frame as the _filter topic logic sees it. Modelled from the spec: the
    filter worker loop (components D and G) is not among the sources; per
    section 4.5 only the optional meta.id entry of an input frame matters. -/
structure InFrame where
  meta_id : Option ℤ

/-- Frame ID emitted on the _filter topic for one tick. Modelled from the spec,
    section 4.5: if any input frame provides meta.id the worker propagates it,
    otherwise it uses the per-worker counter. -/
def tickFilterId (frames : List InFrame) (counter : ℕ) : ℤ :=
  match frames.findSome? (fun f => f.meta_id) with
  | some i => i
  | none => (counter : ℤ)

/-- Run of the worker over a list of ticks. Modelled from the spec: the per-worker
    counter increases by 1 per tick. -/
def runFilterIds : List (List InFrame) → ℕ → List ℤ
  | [], _ => []
  | t :: ts, counter => tickFilterId t counter :: runFilterIds ts (counter + 1)

/-- Sequence of _filter frame IDs a worker emits, the counter starting at 0. -/
def workerFilterIds (ticks : List (List InFrame)) : List ℤ :=
  runFilterIds ticks 0

/-- Helper: the nth emitted ID comes from the nth tick with counter advanced n
    times. -/
theorem runFilterIds_get (ticks : List (List InFrame)) :
    ∀ (c n : ℕ) (h : n < ticks.length),
      (runFilterIds ticks c)[n]? = some (tickFilterId (ticks.get ⟨n, h⟩) (c + n)) := by
  induction ticks with
  | nil =>
      intro c n h
      exact absurd h (by simp)
  | cons t ts ih =>
      intro c n h
      cases n with
      | zero => simp [runFilterIds]
      | succ m =>
          have hm : m < ts.length := by simpa using h
          have hc : c + 1 + m = c + (m + 1) := by omega
          simp only [runFilterIds, List.getElem?_cons_succ, ih (c + 1) m hm, hc]
          rfl

/-- Claim C5 (spec-modelled): the nth _filter frame ID equals meta.id of the
    input when some input frame provides it, and otherwise the per-worker
    counter, which starts at 0 and increases by 1 per tick, hence equals n. -/
theorem c5_filter_frame_ids (ticks : List (List InFrame)) (n : ℕ)
    (h : n < ticks.length) :
    (workerFilterIds ticks)[n]? =
      some (match (ticks.get ⟨n, h⟩).findSome? (fun f => f.meta_id) with
        | some i => i
        | none => (n : ℤ)) := by
  have hrun := runFilterIds_get ticks 0 n h
  simpa [workerFilterIds, tickFilterId] using hrun

/-- Claim C5 witness: three concrete ticks; the third has no meta.id and gets the
    counter value 2. -/
theorem c5_filter_frame_ids_witness :
    (workerFilterIds [[⟨some 42⟩], [], [⟨none⟩]])[2]? = some 2 :=
  c5_filter_frame_ids [[⟨some 42⟩], [], [⟨none⟩]] 2 (by decide)

/-- One sample of the worker runtime metrics. Modelled from the spec: the filter
    worker loop is not among the sources; section 4.5 lists the sampled values,
    modelled as rationals. -/
structure MetricsSample where
  ts : ℚ
  fps : ℚ
  cpu : ℚ
  mem : ℚ
  lat_in : ℚ
  lat_out : ℚ
  uptime_count : ℚ
  frame_count : ℚ
  megapx_count : ℚ

/-- Data mapping of a _metrics frame. Modelled from the spec, sections 4.5 and 6:
    the nine sampled values, with the extra_metrics mapping merged in. -/
def metricsFrameData (s : MetricsSample) (extra : List (String × ℚ)) :
    List (String × ℚ) :=
  [( "ts", s.ts), ( "fps", s.fps), ( "cpu", s.cpu), ( "mem", s.mem),
    ( "lat_in", s.lat_in), ( "lat_out", s.lat_out),
    ( "uptime_count", s.uptime_count), ( "frame_count", s.frame_count),
    ( "megapx_count", s.megapx_count)] ++ extra

/-- Claim C6 (spec-modelled): every _metrics frame data map contains all nine
    required keys, whatever the sample values and extra metrics. -/
theorem c6_metrics_keys (s : MetricsSample) (extra : List (String × ℚ)) :
    "ts" ∈ (metricsFrameData s extra).map Prod.fst
    ∧ "fps" ∈ (metricsFrameData s extra).map Prod.fst
    ∧ "cpu" ∈ (metricsFrameData s extra).map Prod.fst
    ∧ "mem" ∈ (metricsFrameData s extra).map Prod.fst
    ∧ "lat_in" ∈ (metricsFrameData s extra).map Prod.fst
    ∧ "lat_out" ∈ (metricsFrameData s extra).map Prod.fst
    ∧ "uptime_count" ∈ (metricsFrameData s extra).map Prod.fst
    ∧ "frame_count" ∈ (metricsFrameData s extra).map Prod.fst
    ∧ "megapx_count" ∈ (metricsFrameData s extra).map Prod.fst := by
  refine ⟨?_, ?_, ?_, ?_, ?_, ?_, ?_, ?_, ?_⟩ <;> simp [metricsFrameData]

/-- Duck-typed URL-list config field: either the raw comma-separated string or
    the parsed list. Modelled from the spec: the filter worker sources are
    absent; the design notes describe duck-typed config dicts normalized by a
    single entry point accepting either form. -/
inductive UrlsValue
  | raw (s : String)
  | urls (l : List String)

/-- Normalization of a URL-list field: a raw string is split on commas and each
    piece stripped; an already-parsed list passes through. -/
def normalizeUrls : UrlsValue → List String
  | UrlsValue.raw s => (pySplit ',' s).map pyStrip
  | UrlsValue.urls l => l

/-- Duck-typed extra_metrics field: either a list of key-value pairs or the
    mapping already built from them. -/
inductive MetricsValue
  | pairs (l : List (String × ℚ))
  | table (l : List (String × ℚ))

/-- Insert one pair into an association table the way a python dict does: an
    existing key keeps its position and takes the new value, a new key appends. -/
def dictInsert (m : List (String × ℚ)) (kv : String × ℚ) : List (String × ℚ) :=
  if m.any (fun p => p.1 = kv.1) then
    m.map (fun p => if p.1 = kv.1 then (p.1, kv.2) else p)
  else m ++ [kv]

/-- Mapping built from a list of pairs, later pairs winning. -/
def dictOfPairs (l : List (String × ℚ)) : List (String × ℚ) := l.foldl dictInsert []

/-- Normalization of the extra_metrics field. -/
def normalizeMetrics : MetricsValue → List (String × ℚ)
  | MetricsValue.pairs l => dictOfPairs l
  | MetricsValue.table m => m

/-- Config as normalize_config accepts it. Modelled from the spec: the field set
    follows the config surface of section 6, restricted to the fields whose
    normalization the repository test exercises; other scalar fields pass
    through unchanged and are represented by the scalar members here. -/
structure FilterConfigIn where
  id : String
  sources : UrlsValue
  outputs : UrlsValue
  outputs_required : UrlsValue
  extra_metrics : MetricsValue
  metrics_interval : ℤ
  mq_msgid_sync : Bool

/-- Normalized config record, the FilterConfig of the tests. -/
structure FilterConfig where
  id : String
  sources : List String
  outputs : List String
  outputs_required : List String
  extra_metrics : List (String × ℚ)
  metrics_interval : ℤ
  mq_msgid_sync : Bool

/-- Embedding of Filter.normalize_config. Modelled from the spec: a single entry
    point accepting either a record or a field-to-value map, parsing raw fields
    and passing already-normalized fields through. -/
def normalize_config (c : FilterConfigIn) : FilterConfig :=
  ⟨c.id, normalizeUrls c.sources, normalizeUrls c.outputs,
    normalizeUrls c.outputs_required, normalizeMetrics c.extra_metrics,
    c.metrics_interval, c.mq_msgid_sync⟩

/-- View of a normalized config as an input again: every field arrives tagged as
    already parsed. -/
def FilterConfig.asInput (c : FilterConfig) : FilterConfigIn :=
  ⟨c.id, UrlsValue.urls c.sources, UrlsValue.urls c.outputs,
    UrlsValue.urls c.outputs_required, MetricsValue.table c.extra_metrics,
    c.metrics_interval, c.mq_msgid_sync⟩

/-- Claim C7 (spec-modelled): config normalization is idempotent: normalizing a
    normalized config again returns it unchanged. -/
theorem c7_normalize_idempotent (c : FilterConfigIn) :
    normalize_config (normalize_config c).asInput = normalize_config c := rfl

/-- Claim C8 (counterexample): with OF_SAFE_METRICS_FILE set to a readable file,
    read_allowlist returns the file allowlist even though OF_SAFE_METRICS is set,
    so the unconditional env clause of the claim is false. -/
theorem c8_file_overrides_env_counterexample :
    read_allowlist (fun _ => some [ "a" ]) ⟨some "cfg.yaml", some "b,c"⟩ ≠
      parseSafeMetricsEnv "b,c" := by
  decide

/-- Claim C8 (amended): read_allowlist returns the empty set when neither variable
    is set; when OF_SAFE_METRICS_FILE is not set and OF_SAFE_METRICS is set to a
    nonempty comma-separated string, it returns the set of stripped nonempty entries. -/
theorem c8_env_allowlist (fs : String → Option (List String)) (env : TelemetryEnv) :
    (env.safe_metrics_file = none → env.safe_metrics = none →
        read_allowlist fs env = ∅)
    ∧ (∀ s : String, env.safe_metrics_file = none → env.safe_metrics = some s → s ≠ "" →
        read_allowlist fs env = parseSafeMetricsEnv s) := by
  constructor
  · intro h1 h2
    simp [read_allowlist, envAllowlist, h1, h2]
  · intro s h1 h2 h3
    simp [read_allowlist, envAllowlist, h1, h2, h3]

/-- Claim C8 witness: a concrete env-only allowlist with spaces and a trailing
    empty entry. -/
theorem c8_env_allowlist_witness :
    read_allowlist (fun _ => none) ⟨none, some "m1, m2 ,"⟩ =
      parseSafeMetricsEnv "m1, m2 ," :=
  (c8_env_allowlist (fun _ => none) ⟨none, some "m1, m2 ,"⟩).2 "m1, m2 ," rfl rfl (by decide)

/-- Claim C10: when both variables are set, the allowlist comes from the file when
    it can be opened and parsed, ignoring the env variable; only when the file
    read fails does read_allowlist fall back to parsing OF_SAFE_METRICS. -/
theorem c10_file_precedence (fs : String → Option (List String)) (env : TelemetryEnv)
    (path s : String) (hfile : env.safe_metrics_file = some path) (hpath : path ≠ "")
    (henv : env.safe_metrics = some s) (hs : s ≠ "") :
    (∀ names : List String, fs path = some names →
        read_allowlist fs env = names.toFinset)
    ∧ (fs path = none → read_allowlist fs env = parseSafeMetricsEnv s) := by
  constructor
  · intro names hn
    simp [read_allowlist, hfile, hpath, hn]
  · intro hn
    simp [read_allowlist, envAllowlist, hfile, hpath, hn, henv, hs]

/-- Claim C10 witness: a concrete successful file read overriding the env variable. -/
theorem c10_file_precedence_witness :
    read_allowlist (fun _ => some [ "x" ]) ⟨some "cfg.yaml", some "y"⟩ = [ "x" ].toFinset :=
  (c10_file_precedence (fun _ => some [ "x" ]) ⟨some "cfg.yaml", some "y"⟩ "cfg.yaml" "y"
      rfl (by decide) rfl (by decide)).1 [ "x" ] rfl

end Openfilter
